import Mathlib

/-!
Shallow embedding of the action-to-future bridge of the holochain-rust core:
`HoldAspectFuture` (crates/core/src/dht/actions/hold_aspect.rs),
`PublishFuture` (crates/core/src/network/actions/publish.rs) and
`invoke_sleep` (crates/core/src/workflows/sleep.rs).

Each `poll` body is embedded as a pure function of the future's fields and a
per-poll `Context` record holding the results the shared runtime-context
handle would return to this poll (`action_channel_error`, `try_state`).
Besides the poll outcome, the embedding returns the ordered trace of
observable operations the poll body performs (channel-error query, waker
registration, state read, predicate evaluation, action dispatch, waker
unregistration), so that ordering and side-effect claims can be stated.
The waker-registry contents after a poll are obtained by replaying the
trace over the registry model.
-/

namespace Holochain

/-- `EntryAspect` identifiers, abstracted to their identity. -/
abbrev EntryAspect := Nat

/-- Content addresses (`holochain_persistence_api::cas::content::Address`). -/
abbrev Address := Nat

/-- `HolochainError`, abstracted to its identity. -/
abbrev HolochainError := Nat

/-- `ProcessUniqueId` suspension tokens (snowflake ids). -/
abbrev Token := Nat

/-- Executor wake handles (`std::task::Waker`), abstracted to their identity. -/
abbrev Waker := Nat

/-- The `Action` variants touched by these two action creators. -/
inductive Action where
  | HoldAspect (aspect : EntryAspect)
  | Publish (address : Address)
  | ClearActionResponse (id : Token)
deriving DecidableEq, Repr

/-- Modelled from the spec: an `ActionWrapper` is a dispatched action plus its
action-correlation id (`ActionWrapper::new` lives outside src/; §3 of the
spec describes it as external-owned). -/
structure ActionWrapper where
  action : Action
  id : Token
deriving DecidableEq, Repr

/-- Modelled from the spec: `ActionWrapper::new` tags the action with a
freshly minted correlation id; embedded as drawing from a process counter. -/
def ActionWrapper.new (a : Action) (c : Nat) : ActionWrapper × Nat :=
  (⟨a, c⟩, c + 1)

/-- Modelled from the spec: `ProcessUniqueId::new()` mints a process-unique
identifier (external snowflake crate); embedded as drawing from a strictly
increasing process counter. -/
def ProcessUniqueId.new (c : Nat) : Token × Nat :=
  (c, c + 1)

/-- The publish-relevant variants of `NetworkActionResponse`: the
publish-specific result variant, and `Other` standing for every variant of
the enum that is not `Publish` (the enum's remaining variants live outside
src/; the spec calls observing one here a correlation-integrity violation). -/
inductive NetworkActionResponse where
  | Publish (result : Except HolochainError Address)
  | Other
deriving Repr

/-- An entry of the operation-response map; `.response` mirrors the
`r.response()` accessor used by `PublishFuture::poll`. -/
structure ActionResponse where
  response : NetworkActionResponse
deriving Repr

/-- The `state.network()` sub-view read by `PublishFuture::poll`:
`initialized()` and the `actions()` response map keyed by `ActionWrapper`. -/
structure NetworkState where
  initialized : Except HolochainError Unit
  actions : ActionWrapper → Option ActionResponse

/-- The `state.dht()` sub-view read by `HoldAspectFuture::poll`: the holding
map, abstracted to the list of aspects it contains. -/
structure DhtStore where
  holding_map : List EntryAspect

/-- A `SharedState` snapshot: the two sub-views this core reads. -/
structure State where
  dht : DhtStore
  network : NetworkState

/-- The results the shared runtime-context handle returns to one poll:
`action_channel_error(label)` and `try_state()`. -/
structure Context where
  action_channel_error : Option HolochainError
  try_state : Option State

/-- Observable operations a poll body performs, in program order. -/
inductive Event where
  | channelErrorQuery
  | registerWaker (t : Token)
  | unregisterWaker (t : Token)
  | tryState
  | checkHolding (a : EntryAspect)
  | checkInitialized
  | lookupResponse (aw : ActionWrapper)
  | dispatch (a : Action)
deriving DecidableEq, Repr

/-- `futures::task::Poll` outcomes, plus `Fatal` for the `unreachable!()`
panic path (the poll body aborts and returns no value at all). -/
inductive Poll (α : Type) where
  | Ready (a : α)
  | Pending
  | Fatal
deriving Repr

/-- `HoldAspectFuture { context, aspect, id }`; the context handle's per-poll
query results are supplied to `poll` as its `Context` argument. -/
structure HoldAspectFuture where
  aspect : EntryAspect
  id : Token
deriving DecidableEq, Repr

/-- `PublishFuture { context, action, id }`; the context handle's per-poll
query results are supplied to `poll` as its `Context` argument. -/
structure PublishFuture where
  action : ActionWrapper
  id : Token
deriving DecidableEq, Repr

/-- `HoldAspectFuture::poll` (hold_aspect.rs lines 33-51): channel-error
check, waker registration, state read, holding-map membership check,
unregistration on success. Returns the outcome and the event trace. -/
def HoldAspectFuture.poll (f : HoldAspectFuture) (ctx : Context) :
    Poll (Except HolochainError Unit) × List Event :=
  match ctx.action_channel_error with
  | some err => (Poll.Ready (Except.error err), [Event.channelErrorQuery])
  | none =>
    match ctx.try_state with
    | some state =>
      if state.dht.holding_map.contains f.aspect then
        (Poll.Ready (Except.ok ()),
         [Event.channelErrorQuery, Event.registerWaker f.id, Event.tryState,
          Event.checkHolding f.aspect, Event.unregisterWaker f.id])
      else
        (Poll.Pending,
         [Event.channelErrorQuery, Event.registerWaker f.id, Event.tryState,
          Event.checkHolding f.aspect])
    | none =>
      (Poll.Pending,
       [Event.channelErrorQuery, Event.registerWaker f.id, Event.tryState])

/-- `PublishFuture::poll` (publish.rs lines 43-76): channel-error check,
waker registration, state read, `initialized()` check, response-map lookup;
on a `Publish` response it dispatches `ClearActionResponse`, unregisters and
resolves; any other response variant hits `unreachable!()`. -/
def PublishFuture.poll (f : PublishFuture) (ctx : Context) :
    Poll (Except HolochainError Address) × List Event :=
  match ctx.action_channel_error with
  | some err => (Poll.Ready (Except.error err), [Event.channelErrorQuery])
  | none =>
    match ctx.try_state with
    | some state =>
      match state.network.initialized with
      | Except.error error =>
        (Poll.Ready (Except.error error),
         [Event.channelErrorQuery, Event.registerWaker f.id, Event.tryState,
          Event.checkInitialized])
      | Except.ok () =>
        match state.network.actions f.action with
        | some r =>
          match r.response with
          | NetworkActionResponse.Publish result =>
            (Poll.Ready result,
             [Event.channelErrorQuery, Event.registerWaker f.id, Event.tryState,
              Event.checkInitialized, Event.lookupResponse f.action,
              Event.dispatch (Action.ClearActionResponse f.action.id),
              Event.unregisterWaker f.id])
          | NetworkActionResponse.Other =>
            (Poll.Fatal,
             [Event.channelErrorQuery, Event.registerWaker f.id, Event.tryState,
              Event.checkInitialized, Event.lookupResponse f.action])
        | none =>
          (Poll.Pending,
           [Event.channelErrorQuery, Event.registerWaker f.id, Event.tryState,
            Event.checkInitialized, Event.lookupResponse f.action])
    | none =>
      (Poll.Pending,
       [Event.channelErrorQuery, Event.registerWaker f.id, Event.tryState])

/-- `hold_aspect` (hold_aspect.rs lines 11-21): dispatch the `HoldAspect`
action, mint a fresh suspension token, build the future. The process
counter used for minting is threaded explicitly. -/
def hold_aspect (aspect : EntryAspect) (c : Nat) :
    HoldAspectFuture × List Event × Nat :=
  let (aw, c₁) := ActionWrapper.new (Action.HoldAspect aspect) c
  let (id, c₂) := ProcessUniqueId.new c₁
  (⟨aspect, id⟩, [Event.dispatch aw.action], c₂)

/-- `publish` (publish.rs lines 19-29): dispatch the `Publish` action, mint
a fresh suspension token, build the future around the action wrapper. -/
def publish (address : Address) (c : Nat) :
    PublishFuture × List Event × Nat :=
  let (aw, c₁) := ActionWrapper.new (Action.Publish address) c
  let (id, c₂) := ProcessUniqueId.new c₁
  (⟨aw, id⟩, [Event.dispatch aw.action], c₂)

/-- `invoke_sleep` (sleep.rs lines 9-12): sleep for `nanos` nanoseconds and
return `Ok(())`; the sleep is recorded as the nanosecond count requested. -/
def invoke_sleep (_context : Context) (nanos : Nat) :
    Except Unit Unit × List Nat :=
  (Except.ok (), [nanos])

/-- The waker registry: suspension token to wake handle. -/
abbrev WakerRegistry := List (Token × Waker)

/-- Modelled from the spec §4.1: `register(token, wake_handle)`
unconditionally inserts/overwrites (`Context::register_waker` lives outside
src/). -/
def register_waker (reg : WakerRegistry) (t : Token) (w : Waker) :
    WakerRegistry :=
  (t, w) :: reg.filter (fun p => p.1 != t)

/-- Modelled from the spec §4.1: `unregister(token)` removes if present and
is idempotent (`Context::unregister_waker` lives outside src/). -/
def unregister_waker (reg : WakerRegistry) (t : Token) : WakerRegistry :=
  reg.filter (fun p => p.1 != t)

/-- Replay one trace event against the registry; `w` is the wake handle the
current poll would register (`cx.waker().clone()`). -/
def applyEvent (w : Waker) (reg : WakerRegistry) : Event → WakerRegistry
  | Event.registerWaker t => register_waker reg t w
  | Event.unregisterWaker t => unregister_waker reg t
  | _ => reg

/-- Registry contents after replaying a poll's event trace. -/
def runRegistry (reg : WakerRegistry) (w : Waker) (evs : List Event) :
    WakerRegistry :=
  evs.foldl (applyEvent w) reg

/-- Whether a token currently has a registry entry. -/
def registered (reg : WakerRegistry) (t : Token) : Bool :=
  reg.any (fun p => p.1 == t)

/-- The actions a trace dispatches, in order. -/
def dispatches (evs : List Event) : List Action :=
  evs.filterMap (fun e =>
    match e with
    | Event.dispatch a => some a
    | _ => none)

/-- Events that read the shared state snapshot or evaluate a predicate
over it. -/
def readsState : Event → Bool
  | Event.tryState => true
  | Event.checkHolding _ => true
  | Event.checkInitialized => true
  | Event.lookupResponse _ => true
  | _ => false

/-- Unregistration events. -/
def isUnregister : Event → Bool
  | Event.unregisterWaker _ => true
  | _ => false

/-- A request to one of the two asynchronous entry points, used to describe
an arbitrary interleaving of `hold_aspect` and `publish` invocations within
one process. -/
inductive Invocation where
  | holdAspect (aspect : EntryAspect)
  | publishAddr (address : Address)
deriving DecidableEq, Repr

/-- The suspension tokens minted by a sequence of entry-point invocations,
in order, threading the process counter through the constructions. -/
def mintedTokens (c : Nat) : List Invocation → List Token
  | [] => []
  | Invocation.holdAspect a :: rest =>
    (hold_aspect a c).1.id :: mintedTokens (hold_aspect a c).2.2 rest
  | Invocation.publishAddr p :: rest =>
    (publish p c).1.id :: mintedTokens (publish p c).2.2 rest

/-- A token has no registry entry right after it is unregistered. -/
theorem registered_unregister (reg : WakerRegistry) (t : Token) :
    registered (unregister_waker reg t) t = false := by
  simp only [registered, unregister_waker]
  rw [List.any_eq_false]
  intro p hp
  rw [List.mem_filter] at hp
  simpa using hp.2

/-- C10: for every `nanos` value and any context, `invoke_sleep` returns
`Ok(())`; its error variant is never produced. -/
theorem invoke_sleep_never_errors (ctx : Context) (nanos : Nat) :
    (invoke_sleep ctx nanos).1 = Except.ok () := rfl

/-- C2: if the action-channel error query reports a channel failure at the
start of a poll, both futures immediately resolve to `Ready(Err(err))` with
that error, and the poll's trace performs no state read and no predicate
evaluation. -/
theorem channel_error_short_circuits (fh : HoldAspectFuture)
    (fp : PublishFuture) (ctx : Context) (err : HolochainError)
    (h : ctx.action_channel_error = some err) :
    HoldAspectFuture.poll fh ctx =
      (Poll.Ready (Except.error err), [Event.channelErrorQuery]) ∧
    PublishFuture.poll fp ctx =
      (Poll.Ready (Except.error err), [Event.channelErrorQuery]) ∧
    (HoldAspectFuture.poll fh ctx).2.filter readsState = [] ∧
    (PublishFuture.poll fp ctx).2.filter readsState = [] := by
  simp [HoldAspectFuture.poll, PublishFuture.poll, h, readsState]

/-- Witness for C2 at a concrete dead-channel context. -/
theorem channel_error_short_circuits_witness :
    HoldAspectFuture.poll ⟨0, 1⟩ ⟨some 5, none⟩ =
      (Poll.Ready (Except.error 5), [Event.channelErrorQuery]) ∧
    PublishFuture.poll ⟨⟨Action.Publish 2, 3⟩, 4⟩ ⟨some 5, none⟩ =
      (Poll.Ready (Except.error 5), [Event.channelErrorQuery]) ∧
    (HoldAspectFuture.poll ⟨0, 1⟩ ⟨some 5, none⟩).2.filter readsState = [] ∧
    (PublishFuture.poll ⟨⟨Action.Publish 2, 3⟩, 4⟩
        ⟨some 5, none⟩).2.filter readsState = [] :=
  channel_error_short_circuits ⟨0, 1⟩ ⟨⟨Action.Publish 2, 3⟩, 4⟩
    ⟨some 5, none⟩ 5 rfl

/-- C3: in every poll of either future that gets past the channel-error
check, the wake handle is registered under the future's token before any
state read or predicate evaluation: the trace splits around the
registration event with no state-reading event before it. -/
theorem register_then_check (fh : HoldAspectFuture) (fp : PublishFuture)
    (ctx : Context) (h : ctx.action_channel_error = none) :
    (∃ evpre evpost, (HoldAspectFuture.poll fh ctx).2 =
        evpre ++ Event.registerWaker fh.id :: evpost ∧
        evpre.filter readsState = []) ∧
    (∃ evpre evpost, (PublishFuture.poll fp ctx).2 =
        evpre ++ Event.registerWaker fp.id :: evpost ∧
        evpre.filter readsState = []) := by
  constructor
  · cases hs : ctx.try_state with
    | none =>
      exact ⟨[Event.channelErrorQuery], [Event.tryState],
        by simp [HoldAspectFuture.poll, h, hs], rfl⟩
    | some st =>
      by_cases hc : fh.aspect ∈ st.dht.holding_map
      · exact ⟨[Event.channelErrorQuery],
          [Event.tryState, Event.checkHolding fh.aspect,
           Event.unregisterWaker fh.id],
          by simp [HoldAspectFuture.poll, h, hs, hc], rfl⟩
      · exact ⟨[Event.channelErrorQuery],
          [Event.tryState, Event.checkHolding fh.aspect],
          by simp [HoldAspectFuture.poll, h, hs, hc], rfl⟩
  · cases hs : ctx.try_state with
    | none =>
      exact ⟨[Event.channelErrorQuery], [Event.tryState],
        by simp [PublishFuture.poll, h, hs], rfl⟩
    | some st =>
      cases hi : st.network.initialized with
      | error e =>
        exact ⟨[Event.channelErrorQuery],
          [Event.tryState, Event.checkInitialized],
          by simp [PublishFuture.poll, h, hs, hi], rfl⟩
      | ok u =>
        cases ha : st.network.actions fp.action with
        | none =>
          exact ⟨[Event.channelErrorQuery],
            [Event.tryState, Event.checkInitialized,
             Event.lookupResponse fp.action],
            by simp [PublishFuture.poll, h, hs, hi, ha], rfl⟩
        | some r =>
          cases hr : r.response with
          | Publish result =>
            exact ⟨[Event.channelErrorQuery],
              [Event.tryState, Event.checkInitialized,
               Event.lookupResponse fp.action,
               Event.dispatch (Action.ClearActionResponse fp.action.id),
               Event.unregisterWaker fp.id],
              by simp [PublishFuture.poll, h, hs, hi, ha, hr], rfl⟩
          | Other =>
            exact ⟨[Event.channelErrorQuery],
              [Event.tryState, Event.checkInitialized,
               Event.lookupResponse fp.action],
              by simp [PublishFuture.poll, h, hs, hi, ha, hr], rfl⟩

/-- Witness for C3 at a concrete live-channel context. -/
theorem register_then_check_witness :
    (∃ evpre evpost, (HoldAspectFuture.poll ⟨0, 1⟩ ⟨none, none⟩).2 =
        evpre ++ Event.registerWaker 1 :: evpost ∧
        evpre.filter readsState = []) ∧
    (∃ evpre evpost,
        (PublishFuture.poll ⟨⟨Action.Publish 2, 3⟩, 4⟩ ⟨none, none⟩).2 =
          evpre ++ Event.registerWaker 4 :: evpost ∧
          evpre.filter readsState = []) :=
  register_then_check ⟨0, 1⟩ ⟨⟨Action.Publish 2, 3⟩, 4⟩ ⟨none, none⟩ rfl

/-- C4: with a live channel, a `HoldAspectFuture` poll returns
`Ready(Ok(()))` exactly when a snapshot is obtainable and the target aspect
is in its holding set, and returns `Pending` exactly otherwise. -/
theorem hold_poll_ready_iff (f : HoldAspectFuture) (ctx : Context)
    (h : ctx.action_channel_error = none) :
    ((HoldAspectFuture.poll f ctx).1 = Poll.Ready (Except.ok ()) ↔
      ∃ st, ctx.try_state = some st ∧
        st.dht.holding_map.contains f.aspect = true) ∧
    ((HoldAspectFuture.poll f ctx).1 = Poll.Pending ↔
      ¬ ∃ st, ctx.try_state = some st ∧
        st.dht.holding_map.contains f.aspect = true) := by
  cases hs : ctx.try_state with
  | none => simp [HoldAspectFuture.poll, h, hs]
  | some st =>
    by_cases hc : f.aspect ∈ st.dht.holding_map <;>
      simp [HoldAspectFuture.poll, h, hs, hc]

/-- Witness for C4 at a concrete context whose holding set contains the
target aspect. -/
theorem hold_poll_ready_iff_witness :
    ((HoldAspectFuture.poll ⟨1, 2⟩
        ⟨none, some ⟨⟨[1]⟩, ⟨Except.ok (), fun _ => none⟩⟩⟩).1 =
          Poll.Ready (Except.ok ()) ↔
      ∃ st, (Context.mk none
          (some ⟨⟨[1]⟩, ⟨Except.ok (), fun _ => none⟩⟩)).try_state = some st ∧
        st.dht.holding_map.contains 1 = true) ∧
    ((HoldAspectFuture.poll ⟨1, 2⟩
        ⟨none, some ⟨⟨[1]⟩, ⟨Except.ok (), fun _ => none⟩⟩⟩).1 =
          Poll.Pending ↔
      ¬ ∃ st, (Context.mk none
          (some ⟨⟨[1]⟩, ⟨Except.ok (), fun _ => none⟩⟩)).try_state = some st ∧
        st.dht.holding_map.contains 1 = true) :=
  hold_poll_ready_iff ⟨1, 2⟩
    ⟨none, some ⟨⟨[1]⟩, ⟨Except.ok (), fun _ => none⟩⟩⟩ rfl

/-- C1 counterexample: a `PublishFuture` poll over a live channel whose
snapshot reports the network subsystem uninitialized reaches the terminal
state `Ready(Err)` (the SubsystemNotReady path), yet the poll registered
the wake handle and never unregistered it, so the suspension token is still
present in the registry right after the poll returns. -/
theorem registry_cleanup_counterexample :
    (PublishFuture.poll ⟨⟨Action.Publish 5, 0⟩, 7⟩
        ⟨none, some ⟨⟨[]⟩, ⟨Except.error 3, fun _ => none⟩⟩⟩).1 =
      Poll.Ready (Except.error 3) ∧
    registered
      (runRegistry [] 0
        (PublishFuture.poll ⟨⟨Action.Publish 5, 0⟩, 7⟩
          ⟨none, some ⟨⟨[]⟩, ⟨Except.error 3, fun _ => none⟩⟩⟩).2) 7 =
      true :=
  ⟨rfl, rfl⟩

/-- C1 (amended): the suspension token is absent from the registry after
the predicate-true terminal transitions — a `HoldAspectFuture` poll that
returns `Ready(Ok(()))`, and a `PublishFuture` poll over a live channel and
a ready subsystem that returns `Ready` — while the `ChannelError` and
`SubsystemNotReady` failure paths perform no unregistration. -/
theorem registry_cleanup_amended :
    (∀ (f : HoldAspectFuture) (ctx : Context) (reg : WakerRegistry)
        (w : Waker),
      (HoldAspectFuture.poll f ctx).1 = Poll.Ready (Except.ok ()) →
      registered (runRegistry reg w (HoldAspectFuture.poll f ctx).2) f.id =
        false) ∧
    (∀ (f : PublishFuture) (ctx : Context) (st : State)
        (reg : WakerRegistry) (w : Waker) (r : Except HolochainError Address),
      ctx.action_channel_error = none →
      ctx.try_state = some st →
      st.network.initialized = Except.ok () →
      (PublishFuture.poll f ctx).1 = Poll.Ready r →
      registered (runRegistry reg w (PublishFuture.poll f ctx).2) f.id =
        false) := by
  constructor
  · intro f ctx reg w hready
    cases he : ctx.action_channel_error with
    | some err => simp [HoldAspectFuture.poll, he] at hready
    | none =>
      cases hs : ctx.try_state with
      | none => simp [HoldAspectFuture.poll, he, hs] at hready
      | some st =>
        by_cases hc : f.aspect ∈ st.dht.holding_map
        · simp [HoldAspectFuture.poll, he, hs, hc, runRegistry,
            List.foldl_cons, List.foldl_nil, applyEvent, registered_unregister]
        · simp [HoldAspectFuture.poll, he, hs, hc] at hready
  · intro f ctx st reg w r h1 h2 h3 hready
    cases ha : st.network.actions f.action with
    | none => simp [PublishFuture.poll, h1, h2, h3, ha] at hready
    | some resp =>
      cases hr : resp.response with
      | Publish result =>
        simp [PublishFuture.poll, h1, h2, h3, ha, hr, runRegistry,
          List.foldl_cons, List.foldl_nil, applyEvent, registered_unregister]
      | Other => simp [PublishFuture.poll, h1, h2, h3, ha, hr] at hready

/-- Witness for the amended C1: both parts applied at concrete completing
polls, starting from the empty registry. -/
theorem registry_cleanup_amended_witness :
    registered
      (runRegistry [] 0
        (HoldAspectFuture.poll ⟨1, 2⟩
          ⟨none, some ⟨⟨[1]⟩, ⟨Except.ok (), fun _ => none⟩⟩⟩).2) 2 =
      false ∧
    registered
      (runRegistry [] 0
        (PublishFuture.poll ⟨⟨Action.Publish 5, 6⟩, 4⟩
          ⟨none, some ⟨⟨[]⟩,
            ⟨Except.ok (),
             fun _ => some ⟨NetworkActionResponse.Publish (Except.ok 9)⟩⟩⟩⟩).2)
      4 = false :=
  ⟨registry_cleanup_amended.1 ⟨1, 2⟩
      ⟨none, some ⟨⟨[1]⟩, ⟨Except.ok (), fun _ => none⟩⟩⟩ [] 0 rfl,
   registry_cleanup_amended.2 ⟨⟨Action.Publish 5, 6⟩, 4⟩
      ⟨none, some ⟨⟨[]⟩,
        ⟨Except.ok (),
         fun _ => some ⟨NetworkActionResponse.Publish (Except.ok 9)⟩⟩⟩⟩
      ⟨⟨[]⟩, ⟨Except.ok (),
        fun _ => some ⟨NetworkActionResponse.Publish (Except.ok 9)⟩⟩⟩
      [] 0 (Except.ok 9) rfl rfl rfl rfl⟩

/-- C5: when a `PublishFuture` poll (live channel, ready subsystem) finds a
publish-variant response under its action, it dispatches exactly one
cleanup action — `ClearActionResponse` carrying the action's correlation
id — unregisters its suspension token, and returns `Ready` with the
extracted result, which may itself be a domain success or failure. -/
theorem publish_response_completion (f : PublishFuture) (ctx : Context)
    (st : State) (r : ActionResponse) (result : Except HolochainError Address)
    (h1 : ctx.action_channel_error = none)
    (h2 : ctx.try_state = some st)
    (h3 : st.network.initialized = Except.ok ())
    (h4 : st.network.actions f.action = some r)
    (h5 : r.response = NetworkActionResponse.Publish result) :
    (PublishFuture.poll f ctx).1 = Poll.Ready result ∧
    dispatches (PublishFuture.poll f ctx).2 =
      [Action.ClearActionResponse f.action.id] ∧
    Event.unregisterWaker f.id ∈ (PublishFuture.poll f ctx).2 := by
  simp [PublishFuture.poll, h1, h2, h3, h4, h5, dispatches]

/-- Witness for C5 at a concrete context carrying a domain-failure publish
response, showing the domain failure is surfaced as `Ready`. -/
theorem publish_response_completion_witness :
    (PublishFuture.poll ⟨⟨Action.Publish 5, 6⟩, 4⟩
        ⟨none, some ⟨⟨[]⟩,
          ⟨Except.ok (),
           fun _ => some ⟨NetworkActionResponse.Publish (Except.error 8)⟩⟩⟩⟩).1 =
      Poll.Ready (Except.error 8) ∧
    dispatches
      (PublishFuture.poll ⟨⟨Action.Publish 5, 6⟩, 4⟩
        ⟨none, some ⟨⟨[]⟩,
          ⟨Except.ok (),
           fun _ => some ⟨NetworkActionResponse.Publish (Except.error 8)⟩⟩⟩⟩).2 =
      [Action.ClearActionResponse 6] ∧
    Event.unregisterWaker 4 ∈
      (PublishFuture.poll ⟨⟨Action.Publish 5, 6⟩, 4⟩
        ⟨none, some ⟨⟨[]⟩,
          ⟨Except.ok (),
           fun _ => some ⟨NetworkActionResponse.Publish (Except.error 8)⟩⟩⟩⟩).2 :=
  publish_response_completion ⟨⟨Action.Publish 5, 6⟩, 4⟩
    ⟨none, some ⟨⟨[]⟩,
      ⟨Except.ok (),
       fun _ => some ⟨NetworkActionResponse.Publish (Except.error 8)⟩⟩⟩⟩
    ⟨⟨[]⟩, ⟨Except.ok (),
      fun _ => some ⟨NetworkActionResponse.Publish (Except.error 8)⟩⟩⟩
    ⟨NetworkActionResponse.Publish (Except.error 8)⟩ (Except.error 8)
    rfl rfl rfl rfl rfl

/-- C6: a `PublishFuture` poll over a live channel evaluates the
subsystem-initialization check, and when the snapshot reports the subsystem
not ready it returns `Ready(Err)` with the subsystem's own error — not
`Pending` — without ever looking up the response map. -/
theorem publish_subsystem_not_ready (f : PublishFuture) (ctx : Context)
    (st : State) (e : HolochainError)
    (h1 : ctx.action_channel_error = none)
    (h2 : ctx.try_state = some st)
    (h3 : st.network.initialized = Except.error e) :
    (PublishFuture.poll f ctx).1 = Poll.Ready (Except.error e) ∧
    Event.checkInitialized ∈ (PublishFuture.poll f ctx).2 ∧
    ∀ aw, Event.lookupResponse aw ∉ (PublishFuture.poll f ctx).2 := by
  simp [PublishFuture.poll, h1, h2, h3]

/-- Witness for C6 at a concrete uninitialized-subsystem context. -/
theorem publish_subsystem_not_ready_witness :
    (PublishFuture.poll ⟨⟨Action.Publish 5, 6⟩, 4⟩
        ⟨none, some ⟨⟨[]⟩, ⟨Except.error 3, fun _ => none⟩⟩⟩).1 =
      Poll.Ready (Except.error 3) ∧
    Event.checkInitialized ∈
      (PublishFuture.poll ⟨⟨Action.Publish 5, 6⟩, 4⟩
        ⟨none, some ⟨⟨[]⟩, ⟨Except.error 3, fun _ => none⟩⟩⟩).2 ∧
    ∀ aw, Event.lookupResponse aw ∉
      (PublishFuture.poll ⟨⟨Action.Publish 5, 6⟩, 4⟩
        ⟨none, some ⟨⟨[]⟩, ⟨Except.error 3, fun _ => none⟩⟩⟩).2 :=
  publish_subsystem_not_ready ⟨⟨Action.Publish 5, 6⟩, 4⟩
    ⟨none, some ⟨⟨[]⟩, ⟨Except.error 3, fun _ => none⟩⟩⟩
    ⟨⟨[]⟩, ⟨Except.error 3, fun _ => none⟩⟩ 3 rfl rfl rfl

/-- C7: if the response found under the correlation id carries any variant
other than the publish result variant, the poll hits the `unreachable!()`
branch and returns no normal value (`Fatal`: neither `Ready` nor
`Pending`); and under the reducer-side contract that every response entry
is of the publish-response kind, no poll of any `PublishFuture` is ever
`Fatal`. -/
theorem publish_wrong_variant_fatal (f : PublishFuture) (ctx : Context)
    (st : State) (r : ActionResponse)
    (h1 : ctx.action_channel_error = none)
    (h2 : ctx.try_state = some st)
    (h3 : st.network.initialized = Except.ok ())
    (h4 : st.network.actions f.action = some r)
    (h5 : ∀ result, r.response ≠ NetworkActionResponse.Publish result) :
    (PublishFuture.poll f ctx).1 = Poll.Fatal ∧
    ∀ (g : PublishFuture) (ctx' : Context),
      (∀ st', ctx'.try_state = some st' →
        ∀ aw r', st'.network.actions aw = some r' →
          ∃ res, r'.response = NetworkActionResponse.Publish res) →
      (PublishFuture.poll g ctx').1 ≠ Poll.Fatal := by
  constructor
  · cases hr : r.response with
    | Publish result => exact absurd hr (h5 result)
    | Other => simp [PublishFuture.poll, h1, h2, h3, h4, hr]
  · intro g ctx' hcontract
    cases he : ctx'.action_channel_error with
    | some err => simp [PublishFuture.poll, he]
    | none =>
      cases hs : ctx'.try_state with
      | none => simp [PublishFuture.poll, he, hs]
      | some st' =>
        cases hi : st'.network.initialized with
        | error e => simp [PublishFuture.poll, he, hs, hi]
        | ok u =>
          cases ha : st'.network.actions g.action with
          | none => simp [PublishFuture.poll, he, hs, hi, ha]
          | some r' =>
            cases hr : r'.response with
            | Publish res => simp [PublishFuture.poll, he, hs, hi, ha, hr]
            | Other =>
              obtain ⟨res, hres⟩ := hcontract st' hs g.action r' ha
              rw [hr] at hres
              exact absurd hres (by intro hcon; cases hcon)

/-- Witness for C7 at a concrete context whose response map holds a
non-publish variant under the future's action. -/
theorem publish_wrong_variant_fatal_witness :
    (PublishFuture.poll ⟨⟨Action.Publish 5, 6⟩, 4⟩
        ⟨none, some ⟨⟨[]⟩,
          ⟨Except.ok (), fun _ => some ⟨NetworkActionResponse.Other⟩⟩⟩⟩).1 =
      Poll.Fatal :=
  (publish_wrong_variant_fatal ⟨⟨Action.Publish 5, 6⟩, 4⟩
    ⟨none, some ⟨⟨[]⟩,
      ⟨Except.ok (), fun _ => some ⟨NetworkActionResponse.Other⟩⟩⟩⟩
    ⟨⟨[]⟩, ⟨Except.ok (), fun _ => some ⟨NetworkActionResponse.Other⟩⟩⟩
    ⟨NetworkActionResponse.Other⟩ rfl rfl rfl rfl
    (fun _result h => NetworkActionResponse.noConfusion h)).1

/-- The token `hold_aspect` mints from counter `c`. -/
theorem hold_aspect_minted_id (a : EntryAspect) (c : Nat) :
    (hold_aspect a c).1.id = c + 1 := rfl

/-- The counter value `hold_aspect` leaves behind. -/
theorem hold_aspect_counter (a : EntryAspect) (c : Nat) :
    (hold_aspect a c).2.2 = c + 2 := rfl

/-- The token `publish` mints from counter `c`. -/
theorem publish_minted_id (p : Address) (c : Nat) :
    (publish p c).1.id = c + 1 := rfl

/-- The counter value `publish` leaves behind. -/
theorem publish_counter (p : Address) (c : Nat) :
    (publish p c).2.2 = c + 2 := rfl

/-- Every token minted from counter `c` onwards is at least `c`: the minting
counter never reuses earlier values. -/
theorem mintedTokens_lower (invs : List Invocation) :
    ∀ c t, t ∈ mintedTokens c invs → c ≤ t := by
  induction invs with
  | nil => intro c t h; simp [mintedTokens] at h
  | cons i rest ih =>
    intro c t h
    cases i with
    | holdAspect a =>
      simp only [mintedTokens, hold_aspect_minted_id, hold_aspect_counter,
        List.mem_cons] at h
      rcases h with h | h
      · subst h
        omega
      · have := ih (c + 2) t h
        omega
    | publishAddr p =>
      simp only [mintedTokens, publish_minted_id, publish_counter,
        List.mem_cons] at h
      rcases h with h | h
      · subst h
        omega
      · have := ih (c + 2) t h
        omega

/-- C8: every invocation of `hold_aspect` and of `publish` mints a fresh
process-unique suspension token at construction time: across any sequence
of invocations of the two entry points — any mix, any aspects or addresses,
adjacent or separated by other invocations — the minted tokens are pairwise
distinct, so no two future instances ever share a registry slot. -/
theorem fresh_token_per_invocation (c : Nat) (invs : List Invocation) :
    (mintedTokens c invs).Nodup := by
  induction invs generalizing c with
  | nil => simp [mintedTokens]
  | cons i rest ih =>
    cases i with
    | holdAspect a =>
      simp only [mintedTokens, hold_aspect_minted_id, hold_aspect_counter,
        List.nodup_cons]
      refine ⟨fun hmem => ?_, ih (c + 2)⟩
      have := mintedTokens_lower rest (c + 2) (c + 1) hmem
      omega
    | publishAddr p =>
      simp only [mintedTokens, publish_minted_id, publish_counter,
        List.nodup_cons]
      refine ⟨fun hmem => ?_, ih (c + 2)⟩
      have := mintedTokens_lower rest (c + 2) (c + 1) hmem
      omega

/-- C9: when a `HoldAspectFuture` poll completes successfully, it dispatches
no action (so the holding set, only mutable through dispatched actions, is
untouched) and the only unregistration it performs is of its own suspension
token. -/
theorem hold_success_frame (f : HoldAspectFuture) (ctx : Context)
    (h : (HoldAspectFuture.poll f ctx).1 = Poll.Ready (Except.ok ())) :
    dispatches (HoldAspectFuture.poll f ctx).2 = [] ∧
    (HoldAspectFuture.poll f ctx).2.filter isUnregister =
      [Event.unregisterWaker f.id] := by
  cases he : ctx.action_channel_error with
  | some err => simp [HoldAspectFuture.poll, he] at h
  | none =>
    cases hs : ctx.try_state with
    | none => simp [HoldAspectFuture.poll, he, hs] at h
    | some st =>
      by_cases hc : f.aspect ∈ st.dht.holding_map
      · simp [HoldAspectFuture.poll, he, hs, hc, dispatches, isUnregister]
      · simp [HoldAspectFuture.poll, he, hs, hc] at h

/-- Witness for C9 at a concrete successfully completing poll. -/
theorem hold_success_frame_witness :
    dispatches
      (HoldAspectFuture.poll ⟨1, 2⟩
        ⟨none, some ⟨⟨[1]⟩, ⟨Except.ok (), fun _ => none⟩⟩⟩).2 = [] ∧
    (HoldAspectFuture.poll ⟨1, 2⟩
        ⟨none, some ⟨⟨[1]⟩, ⟨Except.ok (), fun _ => none⟩⟩⟩).2.filter
      isUnregister = [Event.unregisterWaker 2] :=
  hold_success_frame ⟨1, 2⟩
    ⟨none, some ⟨⟨[1]⟩, ⟨Except.ok (), fun _ => none⟩⟩⟩ rfl

end Holochain
